import Mathlib

/-!
# Verification of the crypto_inventory key-lifecycle engine

Shallow embedding of the repository's core logic:

* `utils.py` — the cryptoperiod codec (`parse_cryptoperiod`,
  `format_cryptoperiod`, `validate_cryptoperiod_days`);
* `models.py` — the status enums and the `ALLOWED_TRANSITIONS` table;
* `crud.py` — `is_transition_valid`, `create_key_version`,
  `update_key_status`, `check_and_expire_keys`, `delete_key_type`,
  `create_crypto_key`, and the latest-version lookup they rely on;
* `schemas.py` — the cryptoperiod acceptance pipeline of `KeyTypeBase`;
* `main.py` — the `POST /keys/` endpoint wrapper around
  `create_crypto_key`.

The database is a value: a list of `KeyType` rows and a list of
`CryptoKey` rows together with a counter supplying surrogate ids and the
fresh ULIDs that the column defaults generate.  Time is passed in
explicitly as the `now` argument of each operation that reads the clock.
Each Python `raise HTTPException(...)` site is one constructor of
`CrudError`.
-/

namespace CryptoInventory

/-! ## Cryptoperiod codec (`utils.py`) -/

/-- Python `str.strip()` whitespace (the characters stripped by default). -/
def isSpaceChar (c : Char) : Bool :=
  c = ' ' || c = '\t' || c = '\n' || c = '\r' || c = '\x0b' || c = '\x0c'

/-- Strip leading and trailing whitespace from a character list
(`period_str.strip()`). -/
def stripChars (cs : List Char) : List Char :=
  ((cs.dropWhile isSpaceChar).reverse.dropWhile isSpaceChar).reverse

/-- Numeric value of an ASCII digit character. -/
def digitVal (c : Char) : Nat :=
  c.toNat - 48

/-- Value of a run of decimal digit characters, most significant first
(the `int(value)` of the matched group). -/
def digitsVal (ds : List Char) : Nat :=
  ds.foldl (fun a c => a * 10 + digitVal c) 0

/-- `utils.DAYS_IN_MONTH`. -/
def DAYS_IN_MONTH : Nat := 30

/-- `utils.DAYS_IN_YEAR`. -/
def DAYS_IN_YEAR : Nat := 365

/-- `utils.parse_cryptoperiod` on the character list of the input:
strip, lowercase, then `re.match(r"(\d+)([dmy])", ...)` — a non-empty
run of digits followed by a unit character (anything after the unit is
ignored, as `re.match` only anchors at the start). -/
def parseCryptoperiodChars (cs : List Char) : Option Nat :=
  let t := (stripChars cs).map Char.toLower
  let digits := t.takeWhile Char.isDigit
  let rest := t.dropWhile Char.isDigit
  if digits.isEmpty then
    none
  else
    match rest with
    | [] => none
    | unit :: _ =>
      let value := digitsVal digits
      if unit = 'd' then some value
      else if unit = 'm' then some (value * DAYS_IN_MONTH)
      else if unit = 'y' then some (value * DAYS_IN_YEAR)
      else none

/-- `utils.parse_cryptoperiod`: `'30d'` to 30 days, `'6m'` to 180 days,
`'1y'` to 365 days; `none` models the `ValueError` raise. -/
def parse_cryptoperiod (s : String) : Option Nat :=
  parseCryptoperiodChars s.toList

/-- Decimal digits of `n`, least significant first, with enough fuel
(structural recursion so that concrete values reduce). -/
def natDigitsRevCore : Nat → Nat → List Char
  | 0, _ => []
  | fuel + 1, n =>
    if n < 10 then
      [Nat.digitChar n]
    else
      Nat.digitChar (n % 10) :: natDigitsRevCore fuel (n / 10)

/-- Decimal digits of `n`, least significant first (always non-empty:
`n + 1` is enough fuel). -/
def natDigitsRev (n : Nat) : List Char :=
  natDigitsRevCore (n + 1) n

/-- Decimal rendering of `n`, most significant first — the character
content of Python `f-string` interpolation of an `int`. -/
def natDigits (n : Nat) : List Char :=
  (natDigitsRev n).reverse

/-- `utils.format_cryptoperiod`: largest evenly dividing unit, years
before months before raw days. -/
def format_cryptoperiod (days : Nat) : String :=
  if days ≥ DAYS_IN_YEAR && days % DAYS_IN_YEAR == 0 then
    String.mk (natDigits (days / DAYS_IN_YEAR) ++ ['y'])
  else if days ≥ DAYS_IN_MONTH && days % DAYS_IN_MONTH == 0 then
    String.mk (natDigits (days / DAYS_IN_MONTH) ++ ['m'])
  else
    String.mk (natDigits days ++ ['d'])

/-- `utils.validate_cryptoperiod_days`: `MAX_DAYS = 365 * 100`; `true`
means the check passes, `false` models the `ValueError` raise. -/
def validate_cryptoperiod_days (days : Nat) : Bool :=
  !(days > 365 * 100)

/-! ## Data model (`models.py`) -/

/-- `models.KeyTypeStatus`. -/
inductive KeyTypeStatus where
  | ACTIVE
  | DISABLED
deriving DecidableEq

/-- `models.KeyStatus`. -/
inductive KeyStatus where
  | ACTIVE
  | EXPIRED
  | COMPROMISED
  | SUSPENDED
  | DESTROYED
deriving DecidableEq

/-- `models.ALLOWED_TRANSITIONS`: the legal successor set of each
status, as a list. -/
def ALLOWED_TRANSITIONS : KeyStatus → List KeyStatus
  | .ACTIVE => [.SUSPENDED, .COMPROMISED, .EXPIRED]
  | .SUSPENDED => [.ACTIVE, .EXPIRED, .DESTROYED]
  | .COMPROMISED => [.DESTROYED]
  | .EXPIRED => [.DESTROYED]
  | .DESTROYED => []

/-- A `models.KeyType` row.  `id` is the integer surrogate primary key,
`key_id` the ULID correlation id (column default: a fresh ULID). -/
structure KeyType where
  id : Nat
  key_id : String
  name : String
  description : String
  algorithm : String
  size_bits : Nat
  generated_by : String
  form_factor : String
  uniqueness_scope : String
  cryptoperiod_days : Nat
  status : KeyTypeStatus
deriving DecidableEq

/-- A `models.CryptoKey` row, with the columns `crud.py` reads and
writes.  `key_id` is the ULID correlation-id column (unique, column
default: a fresh ULID); `timestamp` is the record-creation instant and
dates are instants on one integer clock whose unit is a day, so that
`timedelta(days=n)` is `+ n`.  `justification` is `none` when the
inserting code never assigns the column. -/
structure CryptoKey where
  id : Nat
  key_id : String
  key_type_id : Nat
  description : String
  generating_entity : String
  generation_method : String
  storage_location : String
  encryption_under_lmk : String
  form_factor : String
  scope_of_uniqueness : String
  usage_purpose : String
  operational_environment : String
  associated_parties : String
  activation_date : Nat
  intended_lifetime : String
  status : KeyStatus
  expiration_date : Nat
  access_control_mechanisms : String
  compliance_requirements : String
  audit_log_reference : String
  backup_and_recovery_details : String
  notes : String
  justification : Option String
  timestamp : Nat
deriving DecidableEq

/-- The database: the two tables plus the counter from which surrogate
ids and fresh column-default ULIDs are drawn. -/
structure Database where
  key_types : List KeyType
  crypto_keys : List CryptoKey
  next_id : Nat
deriving DecidableEq

/-- The ULID that the `key_id` column default generates for the row
numbered `n` (`default=lambda: str(ulid.new())`): fresh, hence distinct
per row. -/
def freshUlid (n : Nat) : String :=
  String.mk (natDigits n ++ ['U', 'L', 'I', 'D'])

/-! ## Errors: one constructor per `raise HTTPException` site -/

/-- The distinct failure conditions raised by the embedded operations,
one constructor per `raise HTTPException(...)` site reached by them. -/
inductive CrudError where
  /-- `crud.update_key_status`: 404 `"Key not found"`. -/
  | keyNotFound
  /-- `crud.update_key_status`: 400 `"Transition from ... is not allowed."`. -/
  | transitionNotAllowed
  /-- `crud.update_key_status`: 400 `"Justification is required for this status change."`. -/
  | justificationRequired
  /-- `crud.delete_key_type`: 404 `"KeyType not found or already disabled."`. -/
  | keyTypeNotFoundOrDisabled
  /-- `crud.delete_key_type`: 400 `"Cannot delete KeyType with associated CryptoKeys. ..."`. -/
  | hasDependentKeys
  /-- `crud.create_crypto_key`: 404 `"KeyType not found"`. -/
  | keyTypeNotFound
  /-- `main.create_crypto_key` endpoint: 400 `"Invalid key_type_id"`. -/
  | invalidKeyTypeId
deriving DecidableEq

/-! ## CRUD operations (`crud.py`) -/

/-- `crud.is_transition_valid`. -/
def is_transition_valid (current_status new_status : KeyStatus) : Bool :=
  new_status ∈ ALLOWED_TRANSITIONS current_status

/-- Of two rows, the one a `ORDER BY timestamp DESC ... first()` query
prefers: the strictly later timestamp wins, earlier row kept on ties. -/
def laterRow (a b : CryptoKey) : CryptoKey :=
  if b.timestamp > a.timestamp then b else a

/-- The `db.query(CryptoKey).filter(CryptoKey.key_id == key_id)
.order_by(CryptoKey.timestamp.desc()).first()` lookup of
`crud.update_key_status`. -/
def latestVersion (db : Database) (key_id : String) : Option CryptoKey :=
  match db.crypto_keys.filter (fun k => k.key_id == key_id) with
  | [] => none
  | x :: xs => some (xs.foldl laterRow x)

/-- `crud.create_key_version`: the new row copies the listed fields of
`original_key`, takes the requested status and a fresh `timestamp`;
`key_id` is not among the assigned fields, so the column default issues
a fresh ULID, and `justification` is not assigned at all. -/
def create_key_version (db : Database) (original_key : CryptoKey)
    (new_status : KeyStatus) (now : Nat) : Database × CryptoKey :=
  let new_key_version : CryptoKey :=
    { id := db.next_id
      key_id := freshUlid db.next_id
      key_type_id := original_key.key_type_id
      description := original_key.description
      generating_entity := original_key.generating_entity
      generation_method := original_key.generation_method
      storage_location := original_key.storage_location
      encryption_under_lmk := original_key.encryption_under_lmk
      form_factor := original_key.form_factor
      scope_of_uniqueness := original_key.scope_of_uniqueness
      usage_purpose := original_key.usage_purpose
      operational_environment := original_key.operational_environment
      associated_parties := original_key.associated_parties
      intended_lifetime := original_key.intended_lifetime
      status := new_status
      expiration_date := original_key.expiration_date
      access_control_mechanisms := original_key.access_control_mechanisms
      compliance_requirements := original_key.compliance_requirements
      audit_log_reference := original_key.audit_log_reference
      backup_and_recovery_details := original_key.backup_and_recovery_details
      notes := original_key.notes
      activation_date := original_key.activation_date
      justification := none
      timestamp := now }
  ({ db with
      crypto_keys := db.crypto_keys ++ [new_key_version]
      next_id := db.next_id + 1 },
    new_key_version)

/-- `crud.update_key_status`: latest version by `key_id`, 404 when
absent; transition validated against the table; a justification is
demanded unless the new status is `EXPIRED` (`not justification` is the
emptiness test on a Python string); then `create_key_version`. -/
def update_key_status (db : Database) (key_id : String)
    (new_status : KeyStatus) (justification : String) (now : Nat) :
    Except CrudError (Database × CryptoKey) :=
  match latestVersion db key_id with
  | none => .error .keyNotFound
  | some original_key =>
    if !is_transition_valid original_key.status new_status then
      .error .transitionNotAllowed
    else if new_status != KeyStatus.EXPIRED && justification == "" then
      .error .justificationRequired
    else
      .ok (create_key_version db original_key new_status now)

/-- `crud.check_and_expire_keys`: every row (not only the latest of a
chain) whose status is `ACTIVE` or `SUSPENDED` and whose
`expiration_date <= now` has its `status` and `justification` fields
assigned in place; no row is added or removed. -/
def check_and_expire_keys (db : Database) (now : Nat) : Database :=
  { db with
    crypto_keys := db.crypto_keys.map (fun key =>
      if (key.status == KeyStatus.ACTIVE || key.status == KeyStatus.SUSPENDED)
          && key.expiration_date ≤ now then
        { key with
          status := KeyStatus.EXPIRED
          justification := some "Automatically expired due to expiration date" }
      else
        key) }

/-- `crud.delete_key_type`: first `KeyType` with the given `key_id` in
`ACTIVE` status, 404 when none; counts `CryptoKey` rows referencing it
whose status is not `DESTROYED`; with dependents and no force, 400 and
no change; with force, the `KeyType` row is set `DISABLED` and every
referencing `CryptoKey` row is updated in place to `DESTROYED`; with no
dependents the `KeyType` row is set `DISABLED`.  Returns the pair the
`KeyTypeDeleteSchema` carries. -/
def delete_key_type (db : Database) (key_type_id : String)
    (force : Bool) : Except CrudError (Database × (String × KeyTypeStatus)) :=
  match db.key_types.find? (fun kt =>
      kt.key_id == key_type_id && kt.status == KeyTypeStatus.ACTIVE) with
  | none => .error .keyTypeNotFoundOrDisabled
  | some key_type =>
    let associated_keys_count :=
      (db.crypto_keys.filter (fun k =>
        k.key_type_id == key_type.id && k.status != KeyStatus.DESTROYED)).length
    if associated_keys_count > 0 then
      if !force then
        .error .hasDependentKeys
      else
        let db1 : Database :=
          { db with
            key_types := db.key_types.map (fun t =>
              if t.id == key_type.id then { t with status := KeyTypeStatus.DISABLED }
              else t)
            crypto_keys := db.crypto_keys.map (fun k =>
              if k.key_type_id == key_type.id then { k with status := KeyStatus.DESTROYED }
              else k) }
        .ok (db1, (key_type.key_id, KeyTypeStatus.DISABLED))
    else
      .ok
        ({ db with
            key_types := db.key_types.map (fun t =>
              if t.id == key_type.id then { t with status := KeyTypeStatus.DISABLED }
              else t) },
          (key_type.key_id, KeyTypeStatus.DISABLED))

/-- The payload of `schemas.CryptoKeyCreate` as `crud.create_crypto_key`
consumes it (`justification` is present on the schema but the function
never reads it; it stores `usage_purpose` as the default
justification). -/
structure CryptoKeyCreate where
  key_type_id : Nat
  description : String
  generating_entity : String
  generation_method : String
  storage_location : String
  encryption_under_lmk : String
  form_factor : String
  scope_of_uniqueness : String
  usage_purpose : String
  operational_environment : String
  associated_parties : String
  activation_date : Option Nat
  access_control_mechanisms : String
  compliance_requirements : String
  audit_log_reference : String
  backup_and_recovery_details : String
  notes : String
  justification : String
deriving DecidableEq

/-- `crud.create_crypto_key`: looks the `KeyType` up by its surrogate
`id` only — no condition on its status; computes the expiration date
from the cryptoperiod and the intended lifetime via the codec; inserts
the first version with status `ACTIVE` and `usage_purpose` as the
justification. -/
def create_crypto_key (db : Database) (crypto_key : CryptoKeyCreate)
    (now : Nat) : Except CrudError (Database × CryptoKey) :=
  match db.key_types.find? (fun kt => kt.id == crypto_key.key_type_id) with
  | none => .error .keyTypeNotFound
  | some key_type =>
    let activation_date := crypto_key.activation_date.getD now
    let cryptoperiod_days := key_type.cryptoperiod_days
    let expiration_date := activation_date + cryptoperiod_days
    let intended_lifetime := format_cryptoperiod cryptoperiod_days
    let db_crypto_key : CryptoKey :=
      { id := db.next_id
        key_id := freshUlid db.next_id
        key_type_id := crypto_key.key_type_id
        description := crypto_key.description
        generating_entity := crypto_key.generating_entity
        generation_method := crypto_key.generation_method
        storage_location := crypto_key.storage_location
        encryption_under_lmk := crypto_key.encryption_under_lmk
        form_factor := crypto_key.form_factor
        scope_of_uniqueness := crypto_key.scope_of_uniqueness
        usage_purpose := crypto_key.usage_purpose
        operational_environment := crypto_key.operational_environment
        associated_parties := crypto_key.associated_parties
        intended_lifetime := intended_lifetime
        activation_date := activation_date
        expiration_date := expiration_date
        status := KeyStatus.ACTIVE
        access_control_mechanisms := crypto_key.access_control_mechanisms
        compliance_requirements := crypto_key.compliance_requirements
        audit_log_reference := crypto_key.audit_log_reference
        backup_and_recovery_details := crypto_key.backup_and_recovery_details
        notes := crypto_key.notes
        justification := some crypto_key.usage_purpose
        timestamp := now }
    .ok
      ({ db with
          crypto_keys := db.crypto_keys ++ [db_crypto_key]
          next_id := db.next_id + 1 },
        db_crypto_key)

/-- The `POST /keys/` endpoint (`main.create_crypto_key`): a prior
existence lookup of the `KeyType` by surrogate id — again with no
condition on its status — then `crud.create_crypto_key`. -/
def create_crypto_key_endpoint (db : Database) (crypto_key : CryptoKeyCreate)
    (now : Nat) : Except CrudError (Database × CryptoKey) :=
  match db.key_types.find? (fun kt => kt.id == crypto_key.key_type_id) with
  | none => .error .invalidKeyTypeId
  | some _ => create_crypto_key db crypto_key now

/-! ## KeyType cryptoperiod acceptance (`schemas.KeyTypeBase`) -/

/-- The `^\d+[dmy]$` pattern of the `cryptoperiod` field of
`schemas.KeyTypeBase`: one or more digits followed by exactly one unit
character. -/
def matchesCryptoperiodPattern (s : String) : Bool :=
  match s.toList.reverse with
  | [] => false
  | u :: rds =>
    (u == 'd' || u == 'm' || u == 'y') && !rds.isEmpty && rds.all Char.isDigit

/-- The cryptoperiod acceptance pipeline of `schemas.KeyTypeBase`: the
field pattern `^\d+[dmy]$`, `utils.parse_cryptoperiod` (run by
`parse_cryptoperiod_input`), and `utils.validate_cryptoperiod_days`.
`some days` is the day count persisted for an accepted token; `none`
models rejection of the request. -/
def keyTypeCryptoperiodAccept (token : String) : Option Nat :=
  if !matchesCryptoperiodPattern token then
    none
  else
    (parse_cryptoperiod token).bind (fun days =>
      if validate_cryptoperiod_days days then some days else none)

/-! ## Codec lemmas: the decimal rendering parses back -/

theorem digitChar_isDigit : ∀ d : Fin 10, (Nat.digitChar d.val).isDigit = true := by
  decide

theorem digitChar_toLower : ∀ d : Fin 10, Char.toLower (Nat.digitChar d.val) = Nat.digitChar d.val := by
  decide

theorem digitChar_not_space : ∀ d : Fin 10, isSpaceChar (Nat.digitChar d.val) = false := by
  decide

theorem digitChar_val : ∀ d : Fin 10, digitVal (Nat.digitChar d.val) = d.val := by
  decide

theorem natDigitsRevCore_spec :
    ∀ fuel n : Nat, n < fuel →
      natDigitsRevCore fuel n ≠ [] ∧
      (∀ c ∈ natDigitsRevCore fuel n, ∃ d, d < 10 ∧ c = Nat.digitChar d) ∧
      (natDigitsRevCore fuel n).foldr (fun c a => a * 10 + digitVal c) 0 = n := by
  intro fuel
  induction fuel with
  | zero => intro n h; omega
  | succ fuel ih =>
    intro n hn
    by_cases h10 : n < 10
    · have hd := digitChar_val ⟨n, h10⟩
      refine ⟨by simp [natDigitsRevCore, h10], ?_, ?_⟩
      · intro c hc
        simp only [natDigitsRevCore, if_pos h10, List.mem_singleton] at hc
        exact ⟨n, h10, hc⟩
      · simp [natDigitsRevCore, h10, hd]
    · have hlt : n / 10 < fuel := by omega
      obtain ⟨hne, hmem, hval⟩ := ih (n / 10) hlt
      have hmod : n % 10 < 10 := Nat.mod_lt _ (by omega)
      have hd := digitChar_val ⟨n % 10, hmod⟩
      refine ⟨by simp [natDigitsRevCore, h10], ?_, ?_⟩
      · intro c hc
        simp only [natDigitsRevCore, if_neg h10, List.mem_cons] at hc
        rcases hc with rfl | hc
        · exact ⟨n % 10, hmod, rfl⟩
        · exact hmem c hc
      · simp only [natDigitsRevCore, if_neg h10, List.foldr_cons, hval, hd]
        omega

theorem natDigits_spec (n : Nat) :
    natDigits n ≠ [] ∧
    (∀ c ∈ natDigits n, ∃ d, d < 10 ∧ c = Nat.digitChar d) ∧
    digitsVal (natDigits n) = n := by
  obtain ⟨hne, hmem, hval⟩ := natDigitsRevCore_spec (n + 1) n (Nat.lt_succ_self n)
  unfold natDigits natDigitsRev
  refine ⟨by simpa using hne, ?_, ?_⟩
  · intro c hc
    exact hmem c (List.mem_reverse.mp hc)
  · unfold digitsVal
    rw [List.foldl_reverse]
    exact hval

theorem dropWhile_all_false {p : Char → Bool} :
    ∀ l : List Char, (∀ c ∈ l, p c = false) → l.dropWhile p = l := by
  intro l h
  cases l with
  | nil => rfl
  | cons c cs => simp [List.dropWhile_cons, h c (List.mem_cons_self c cs)]

theorem stripChars_no_space (l : List Char) (h : ∀ c ∈ l, isSpaceChar c = false) :
    stripChars l = l := by
  unfold stripChars
  rw [dropWhile_all_false l h,
    dropWhile_all_false l.reverse (fun c hc => h c (List.mem_reverse.mp hc)),
    List.reverse_reverse]

theorem map_toLower_id :
    ∀ l : List Char, (∀ c ∈ l, Char.toLower c = c) → l.map Char.toLower = l := by
  intro l
  induction l with
  | nil => intro _; rfl
  | cons c cs ih =>
    intro h
    simp only [List.map_cons, h c (List.mem_cons_self c cs),
      ih (fun x hx => h x (List.mem_cons_of_mem _ hx))]

theorem takeWhile_append_unit {p : Char → Bool} {u : Char} (hu : p u = false) :
    ∀ l : List Char, (∀ c ∈ l, p c = true) →
      (l ++ [u]).takeWhile p = l ∧ (l ++ [u]).dropWhile p = [u] := by
  intro l
  induction l with
  | nil => intro _; simp [List.takeWhile_cons, List.dropWhile_cons, hu]
  | cons c cs ih =>
    intro h
    obtain ⟨h1, h2⟩ := ih (fun x hx => h x (List.mem_cons_of_mem _ hx))
    simp [List.takeWhile_cons, List.dropWhile_cons, h c (List.mem_cons_self c cs), h1, h2]

theorem parseCryptoperiodChars_digits_unit (k : Nat) (u : Char)
    (hud : u.isDigit = false) (hus : isSpaceChar u = false) (hul : Char.toLower u = u) :
    parseCryptoperiodChars (natDigits k ++ [u]) =
      (if u = 'd' then some k
       else if u = 'm' then some (k * DAYS_IN_MONTH)
       else if u = 'y' then some (k * DAYS_IN_YEAR)
       else none) := by
  obtain ⟨hne, hmem, hval⟩ := natDigits_spec k
  have hdig : ∀ c ∈ natDigits k, c.isDigit = true := by
    intro c hc
    obtain ⟨d, hd, rfl⟩ := hmem c hc
    exact digitChar_isDigit ⟨d, hd⟩
  have hlow : ∀ c ∈ natDigits k ++ [u], Char.toLower c = c := by
    intro c hc
    rcases List.mem_append.mp hc with hc | hc
    · obtain ⟨d, hd, rfl⟩ := hmem c hc
      exact digitChar_toLower ⟨d, hd⟩
    · rw [List.mem_singleton.mp hc]
      exact hul
  have hnos : ∀ c ∈ natDigits k ++ [u], isSpaceChar c = false := by
    intro c hc
    rcases List.mem_append.mp hc with hc | hc
    · obtain ⟨d, hd, rfl⟩ := hmem c hc
      exact digitChar_not_space ⟨d, hd⟩
    · rw [List.mem_singleton.mp hc]
      exact hus
  obtain ⟨htw, hdw⟩ := takeWhile_append_unit hud (natDigits k) hdig
  have hemp : (natDigits k).isEmpty = false := by
    rcases hcase : natDigits k with _ | ⟨c, cs⟩
    · exact absurd hcase hne
    · rfl
  unfold parseCryptoperiodChars
  simp only [stripChars_no_space _ hnos, map_toLower_id _ hlow, htw, hdw, hemp,
    Bool.false_eq_true, if_false, hval]

theorem parse_format_roundtrip (x : Nat) :
    parse_cryptoperiod (format_cryptoperiod x) = some x := by
  unfold format_cryptoperiod
  split
  · next h =>
    simp only [Bool.and_eq_true, decide_eq_true_eq, beq_iff_eq] at h
    show parseCryptoperiodChars (natDigits (x / DAYS_IN_YEAR) ++ ['y']) = some x
    rw [parseCryptoperiodChars_digits_unit _ 'y' (by decide) (by decide) (by decide)]
    have : x / DAYS_IN_YEAR * DAYS_IN_YEAR = x :=
      Nat.div_mul_cancel (Nat.dvd_of_mod_eq_zero h.2)
    simp [this]
  · split
    · next h =>
      simp only [Bool.and_eq_true, decide_eq_true_eq, beq_iff_eq] at h
      show parseCryptoperiodChars (natDigits (x / DAYS_IN_MONTH) ++ ['m']) = some x
      rw [parseCryptoperiodChars_digits_unit _ 'm' (by decide) (by decide) (by decide)]
      have : x / DAYS_IN_MONTH * DAYS_IN_MONTH = x :=
        Nat.div_mul_cancel (Nat.dvd_of_mod_eq_zero h.2)
      simp [this]
    · show parseCryptoperiodChars (natDigits x ++ ['d']) = some x
      rw [parseCryptoperiodChars_digits_unit _ 'd' (by decide) (by decide) (by decide)]
      simp

/-! ## Concrete fixtures for the claim theorems -/

/-- A concrete `KeyType` row. -/
def sampleKeyType (id : Nat) (kid : String) (status : KeyTypeStatus) (days : Nat) : KeyType :=
  { id := id
    key_id := kid
    name := "Test KeyType"
    description := "LMK"
    algorithm := "AES"
    size_bits := 256
    generated_by := "Issuer"
    form_factor := "HSM"
    uniqueness_scope := "device"
    cryptoperiod_days := days
    status := status }

/-- A concrete `CryptoKey` row. -/
def sampleKey (id : Nat) (kid : String) (status : KeyStatus) (ts exp : Nat) : CryptoKey :=
  { id := id
    key_id := kid
    key_type_id := 1
    description := "Test CryptoKey"
    generating_entity := "Issuer"
    generation_method := "HSM generated"
    storage_location := "HSM"
    encryption_under_lmk := "Yes"
    form_factor := "HSM"
    scope_of_uniqueness := "device"
    usage_purpose := "transaction encryption"
    operational_environment := "production"
    associated_parties := "acquirer"
    activation_date := 0
    intended_lifetime := "1y"
    status := status
    expiration_date := exp
    access_control_mechanisms := "dual control"
    compliance_requirements := "PCI DSS"
    audit_log_reference := "log-001"
    backup_and_recovery_details := "escrow"
    notes := "fixture"
    justification := some "initial issuance"
    timestamp := ts }

/-- The latest (single) version of the chain `K1`, status `ACTIVE`,
created at instant 1, expiring at instant 100. -/
def sampleActiveRow : CryptoKey :=
  sampleKey 1 "K1" KeyStatus.ACTIVE 1 100

/-- One `ACTIVE` key type `KT1` and the one-version chain `K1`. -/
def sampleDb1 : Database :=
  { key_types := [sampleKeyType 1 "KT1" KeyTypeStatus.ACTIVE 365]
    crypto_keys := [sampleActiveRow]
    next_id := 2 }

/-- A database with no `CryptoKey` rows at all. -/
def emptyDb : Database :=
  { key_types := [], crypto_keys := [], next_id := 1 }

/-- The payload of a concrete issue request against key type 1. -/
def sampleCreate : CryptoKeyCreate :=
  { key_type_id := 1
    description := "Test CryptoKey"
    generating_entity := "Issuer"
    generation_method := "HSM generated"
    storage_location := "HSM"
    encryption_under_lmk := "Yes"
    form_factor := "HSM"
    scope_of_uniqueness := "device"
    usage_purpose := "transaction encryption"
    operational_environment := "production"
    associated_parties := "acquirer"
    activation_date := some 0
    access_control_mechanisms := "dual control"
    compliance_requirements := "PCI DSS"
    audit_log_reference := "log-001"
    backup_and_recovery_details := "escrow"
    notes := "fixture"
    justification := "issuance request" }

/-! ## Claim theorems -/

/-- C1.  The claim states an append-only audit invariant: no operation
ever modifies an already-persisted `CryptoKey` row.  The code violates
it: the forced cascade of `delete_key_type` bulk-updates every
referencing row in place (as `check_and_expire_keys` also assigns
fields of persisted rows in place, see the C5 theorem).  Here the
pre-existing row of `sampleDb1` — `ACTIVE` before the call — is the
very same row (same surrogate id, same position, no new row appended)
with its status overwritten to `DESTROYED` afterwards. -/
theorem C1_cascade_mutates_persisted_rows :
    delete_key_type sampleDb1 "KT1" true =
      .ok ({ sampleDb1 with
              key_types := [{ sampleKeyType 1 "KT1" KeyTypeStatus.ACTIVE 365 with
                status := KeyTypeStatus.DISABLED }]
              crypto_keys := [{ sampleActiveRow with status := KeyStatus.DESTROYED }] },
            ("KT1", KeyTypeStatus.DISABLED)) ∧
    sampleDb1.crypto_keys = [sampleActiveRow] ∧
    sampleActiveRow.status = KeyStatus.ACTIVE ∧
    { sampleActiveRow with status := KeyStatus.DESTROYED } ≠ sampleActiveRow := by
  exact ⟨rfl, rfl, rfl, by decide⟩

/-- The row `crud.create_key_version` appends for the C2 scenario:
every listed field copied from `sampleActiveRow`, but `key_id` is a
fresh column-default ULID — not the chain's correlation id `K1` — and
`justification` is never assigned. -/
def c2AppendedRow : CryptoKey :=
  { sampleActiveRow with
    id := 2
    key_id := freshUlid 2
    status := KeyStatus.SUSPENDED
    justification := none
    timestamp := 5 }

/-- C2.  The claim states that the version appended by a successful
`update_key_status` shares the chain's correlation id (`key_id`) and
carries the caller-supplied justification.  The code violates both:
`create_key_version` never assigns `key_id` (so the unique column
default mints a fresh ULID) nor `justification` (so the supplied
string is validated and then dropped).  The copied static fields, the
requested status, the fresh timestamp and the returned value are as
claimed. -/
theorem C2_appended_version_loses_correlation_and_justification :
    update_key_status sampleDb1 "K1" KeyStatus.SUSPENDED "rotation" 5 =
      .ok ({ sampleDb1 with
              crypto_keys := [sampleActiveRow, c2AppendedRow]
              next_id := 3 },
            c2AppendedRow) ∧
    c2AppendedRow.key_id ≠ sampleActiveRow.key_id ∧
    c2AppendedRow.justification ≠ some "rotation" ∧
    c2AppendedRow.status = KeyStatus.SUSPENDED ∧
    c2AppendedRow.description = sampleActiveRow.description ∧
    c2AppendedRow.timestamp = 5 := by
  exact ⟨rfl, by decide, by decide, rfl, rfl, rfl⟩

/-- C5.  The claim states that one sweep run appends exactly one new
`EXPIRED` version for each due chain.  The code instead assigns the
`status` and `justification` fields of every due row in place: after
`check_and_expire_keys` on `sampleDb1` (one `ACTIVE` row expiring at
100, clock at 200) the table still has exactly one row — the
pre-existing row, overwritten — and no appended version.  A key not
yet due (clock at 50) is indeed left entirely untouched. -/
theorem C5_sweep_overwrites_instead_of_appending :
    check_and_expire_keys sampleDb1 200 =
      { sampleDb1 with
        crypto_keys := [{ sampleActiveRow with
          status := KeyStatus.EXPIRED
          justification := some "Automatically expired due to expiration date" }] } ∧
    (check_and_expire_keys sampleDb1 200).crypto_keys.length =
      sampleDb1.crypto_keys.length ∧
    check_and_expire_keys sampleDb1 50 = sampleDb1 := by
  exact ⟨by decide, by decide, by decide⟩

/-- A database whose only key type is `DISABLED`. -/
def disabledTypeDb : Database :=
  { key_types := [sampleKeyType 1 "KT1" KeyTypeStatus.DISABLED 365]
    crypto_keys := []
    next_id := 2 }

/-- C6.  The claim states that issuing against a `DISABLED` key type
fails with `KeyTypeDisabled`.  Neither the `POST /keys/` endpoint nor
`crud.create_crypto_key` ever inspects the key type's status — both
look it up by id only — so issuing against the `DISABLED` type of
`disabledTypeDb` succeeds and creates a first version with status
`ACTIVE`.  (The absence half of the claim does hold: see the lookup
`find?` in both functions.) -/
theorem C6_disabled_key_type_accepted :
    disabledTypeDb.key_types.map KeyType.status = [KeyTypeStatus.DISABLED] ∧
    (create_crypto_key_endpoint disabledTypeDb sampleCreate 10).toOption.map
      (fun p => p.2.status) = some KeyStatus.ACTIVE := by
  exact ⟨by decide, by decide⟩

/-- C3.  The transition table governs `update_key_status`: with the key
present (latest version `row`) and a non-empty justification, the
request succeeds — appending a version whose status is the requested
target — exactly when the target is a legal successor of `row.status`
in `ALLOWED_TRANSITIONS`, and fails with the illegal-transition error
otherwise.  The first conjunct pins the table to the claim's
enumeration: Active to Suspended, Compromised or Expired; Suspended to
Active, Expired or Destroyed; Compromised to Destroyed; Expired to
Destroyed; Destroyed terminal. -/
theorem C3_transition_table_governs (db : Database) (kid : String)
    (row : CryptoKey) (target : KeyStatus) (j : String) (now : Nat)
    (hrow : latestVersion db kid = some row) (hj : j ≠ "") :
    (∀ a b : KeyStatus, is_transition_valid a b = true ↔
      (a, b) ∈ ([(.ACTIVE, .SUSPENDED), (.ACTIVE, .COMPROMISED), (.ACTIVE, .EXPIRED),
        (.SUSPENDED, .ACTIVE), (.SUSPENDED, .EXPIRED), (.SUSPENDED, .DESTROYED),
        (.COMPROMISED, .DESTROYED), (.EXPIRED, .DESTROYED)] :
        List (KeyStatus × KeyStatus))) ∧
    (is_transition_valid row.status target = true →
      update_key_status db kid target j now =
        .ok (create_key_version db row target now) ∧
      (create_key_version db row target now).2.status = target) ∧
    (is_transition_valid row.status target = false →
      update_key_status db kid target j now = .error .transitionNotAllowed) := by
  have hjb : (j == "") = false := beq_eq_false_iff_ne.mpr hj
  refine ⟨fun a b => by cases a <;> cases b <;> decide, ?_, ?_⟩
  · intro hv
    refine ⟨?_, rfl⟩
    unfold update_key_status
    rw [hrow]
    simp [hv, hjb]
  · intro hv
    unfold update_key_status
    rw [hrow]
    simp [hv]

/-- A database whose only chain `K2` has a single `DESTROYED` version. -/
def destroyedRowDb : Database :=
  { key_types := [sampleKeyType 1 "KT1" KeyTypeStatus.ACTIVE 365]
    crypto_keys := [sampleKey 1 "K2" KeyStatus.DESTROYED 3 100]
    next_id := 2 }

/-- Witness for C3: `DESTROYED` is terminal, so reactivating `K2`
fails with the illegal-transition error. -/
theorem C3_transition_table_governs_witness :
    update_key_status destroyedRowDb "K2" KeyStatus.ACTIVE "j" 5 =
      .error .transitionNotAllowed :=
  (C3_transition_table_governs destroyedRowDb "K2"
    (sampleKey 1 "K2" KeyStatus.DESTROYED 3 100)
    KeyStatus.ACTIVE "j" 5 rfl (by decide)).2.2 rfl

/-- C7.  With the key present and the requested transition legal,
`update_key_status` fails with the missing-justification error exactly
when the supplied justification is the empty string and the target
status is not `EXPIRED`; a legal transition into `EXPIRED` succeeds
with the empty justification. -/
theorem C7_justification_required_except_expired (db : Database) (kid : String)
    (row : CryptoKey) (target : KeyStatus) (j : String) (now : Nat)
    (hrow : latestVersion db kid = some row)
    (hlegal : is_transition_valid row.status target = true) :
    (update_key_status db kid target j now = .error .justificationRequired ↔
      j = "" ∧ target ≠ KeyStatus.EXPIRED) ∧
    (target = KeyStatus.EXPIRED →
      update_key_status db kid target "" now =
        .ok (create_key_version db row target now)) := by
  constructor
  · unfold update_key_status
    rw [hrow]
    by_cases hj : j = ""
    · subst hj
      by_cases he : target = KeyStatus.EXPIRED
      · subst he
        simp [hlegal]
      · have hne : (target != KeyStatus.EXPIRED) = true := bne_iff_ne.mpr he
        simp [hlegal, hne, he]
    · have hjb : (j == "") = false := beq_eq_false_iff_ne.mpr hj
      simp [hlegal, hjb, hj]
  · intro he
    subst he
    unfold update_key_status
    rw [hrow]
    simp [hlegal]

/-- Witness for C7: expiring the active key `K1` with the empty
justification succeeds. -/
theorem C7_justification_required_except_expired_witness :
    update_key_status sampleDb1 "K1" KeyStatus.EXPIRED "" 5 =
      .ok (create_key_version sampleDb1 sampleActiveRow KeyStatus.EXPIRED 5) :=
  (C7_justification_required_except_expired sampleDb1 "K1" sampleActiveRow
    KeyStatus.EXPIRED "" 5 rfl rfl).2 rfl

/-- C10.  Error precedence of `update_key_status`: an absent key is
reported as not-found regardless of the rest of the request; with the
key present, an illegal transition is reported as such for every
justification, the empty one included; and a missing-justification
failure can only arise for a transition that is legal per the table. -/
theorem C10_error_precedence (db : Database) (kid : String)
    (target : KeyStatus) (j : String) (now : Nat) :
    (latestVersion db kid = none →
      update_key_status db kid target j now = .error .keyNotFound) ∧
    (∀ row, latestVersion db kid = some row →
      is_transition_valid row.status target = false →
      update_key_status db kid target j now = .error .transitionNotAllowed) ∧
    (update_key_status db kid target j now = .error .justificationRequired →
      ∃ row, latestVersion db kid = some row ∧
        is_transition_valid row.status target = true) := by
  refine ⟨?_, ?_, ?_⟩
  · intro h
    unfold update_key_status
    rw [h]
  · intro row h hv
    unfold update_key_status
    rw [h]
    simp [hv]
  · intro h
    rcases hl : latestVersion db kid with _ | row
    · have h0 : update_key_status db kid target j now = .error .keyNotFound := by
        unfold update_key_status
        rw [hl]
      rw [h0] at h
      exact absurd (Except.error.inj h) (by decide)
    · refine ⟨row, rfl, ?_⟩
      by_cases hv : is_transition_valid row.status target = true
      · exact hv
      · have hv2 : is_transition_valid row.status target = false := by
          simpa using hv
        have h1 : update_key_status db kid target j now = .error .transitionNotAllowed := by
          unfold update_key_status
          rw [hl]
          simp [hv2]
        rw [h1] at h
        exact absurd (Except.error.inj h) (by decide)

/-- Witness for C10: on the empty database every request — here one
that is also an illegal transition with an empty justification — is
reported as not-found. -/
theorem C10_error_precedence_witness :
    update_key_status emptyDb "K1" KeyStatus.DESTROYED "" 0 = .error .keyNotFound :=
  (C10_error_precedence emptyDb "K1" KeyStatus.DESTROYED "" 0).1 rfl

/-- One `ACTIVE` key type `KT1` and one chain `K1` whose latest
version (timestamp 2) is `DESTROYED`, while its first version
(timestamp 1) is `ACTIVE`. -/
def latestDestroyedDb : Database :=
  { key_types := [sampleKeyType 1 "KT1" KeyTypeStatus.ACTIVE 365]
    crypto_keys :=
      [sampleKey 1 "K1" KeyStatus.ACTIVE 1 100,
       sampleKey 2 "K1" KeyStatus.DESTROYED 2 100]
    next_id := 3 }

/-- C4 counterexample.  In `latestDestroyedDb` the only chain's latest
version is `DESTROYED`, so by the claim no dependent non-Destroyed key
chain exists and a non-forced disable should succeed; the code instead
counts non-Destroyed version rows — the chain's superseded first
version is still `ACTIVE` — and fails with the dependent-keys error. -/
theorem C4_counterexample_latest_destroyed_still_blocks :
    latestDestroyedDb.crypto_keys.map CryptoKey.key_id = ["K1", "K1"] ∧
    latestVersion latestDestroyedDb "K1" =
      some (sampleKey 2 "K1" KeyStatus.DESTROYED 2 100) ∧
    (sampleKey 2 "K1" KeyStatus.DESTROYED 2 100).status = KeyStatus.DESTROYED ∧
    delete_key_type latestDestroyedDb "KT1" false = .error .hasDependentKeys := by
  exact ⟨rfl, rfl, rfl, rfl⟩

/-- C4 as amended: the dependent test of `delete_key_type` is per
version row, not per chain.  With no `ACTIVE` key type under the id
the call fails as not-found; with one, it fails with the
dependent-keys error when some non-`DESTROYED` version row references
the key type and `force` is false, disables the key type (touching no
key row) when every referencing row is `DESTROYED`, and with `force`
set disables the key type and overwrites every referencing row —
hence every chain's latest version — to `DESTROYED`. -/
theorem C4_disable_dependents_are_rows (db : Database) (ktid : String) (force : Bool) :
    (db.key_types.find? (fun kt =>
        kt.key_id == ktid && kt.status == KeyTypeStatus.ACTIVE) = none →
      delete_key_type db ktid force = .error .keyTypeNotFoundOrDisabled) ∧
    (∀ kt, db.key_types.find? (fun kt =>
        kt.key_id == ktid && kt.status == KeyTypeStatus.ACTIVE) = some kt →
      (db.crypto_keys.filter (fun k =>
          k.key_type_id == kt.id && k.status != KeyStatus.DESTROYED) ≠ [] →
        force = false →
        delete_key_type db ktid force = .error .hasDependentKeys) ∧
      (db.crypto_keys.filter (fun k =>
          k.key_type_id == kt.id && k.status != KeyStatus.DESTROYED) = [] →
        delete_key_type db ktid force =
          .ok ({ db with key_types := db.key_types.map (fun t =>
                  if t.id == kt.id then { t with status := KeyTypeStatus.DISABLED }
                  else t) },
            (kt.key_id, KeyTypeStatus.DISABLED))) ∧
      (db.crypto_keys.filter (fun k =>
          k.key_type_id == kt.id && k.status != KeyStatus.DESTROYED) ≠ [] →
        force = true →
        delete_key_type db ktid force =
          .ok ({ db with
                  key_types := db.key_types.map (fun t =>
                    if t.id == kt.id then { t with status := KeyTypeStatus.DISABLED }
                    else t)
                  crypto_keys := db.crypto_keys.map (fun k =>
                    if k.key_type_id == kt.id then { k with status := KeyStatus.DESTROYED }
                    else k) },
            (kt.key_id, KeyTypeStatus.DISABLED)) ∧
        (db.crypto_keys.map (fun k =>
            if k.key_type_id == kt.id then { k with status := KeyStatus.DESTROYED }
            else k)).length = db.crypto_keys.length ∧
        ∀ k ∈ db.crypto_keys.map (fun k =>
            if k.key_type_id == kt.id then { k with status := KeyStatus.DESTROYED }
            else k),
          k.key_type_id = kt.id → k.status = KeyStatus.DESTROYED)) := by
  refine ⟨?_, ?_⟩
  · intro h
    unfold delete_key_type
    rw [h]
  · intro kt hfind
    refine ⟨?_, ?_, ?_⟩
    · intro hne hforce
      subst hforce
      have hlen : 0 < (db.crypto_keys.filter (fun k =>
          k.key_type_id == kt.id && k.status != KeyStatus.DESTROYED)).length :=
        List.length_pos.mpr hne
      unfold delete_key_type
      rw [hfind]
      simp [hlen]
    · intro hnil
      unfold delete_key_type
      rw [hfind]
      simp [hnil]
    · intro hne hforce
      subst hforce
      have hlen : 0 < (db.crypto_keys.filter (fun k =>
          k.key_type_id == kt.id && k.status != KeyStatus.DESTROYED)).length :=
        List.length_pos.mpr hne
      refine ⟨?_, by simp, ?_⟩
      · unfold delete_key_type
        rw [hfind]
        simp [hlen]
      · intro k hk
        obtain ⟨k0, hk0, rfl⟩ := List.mem_map.mp hk
        by_cases h0 : (k0.key_type_id == kt.id) = true
        · simp [h0]
        · simp only [h0, Bool.false_eq_true, if_false]
          intro hc
          simp [hc] at h0

/-- One `ACTIVE` key type `KT1` whose single referencing version row
is already `DESTROYED`. -/
def allDestroyedDb : Database :=
  { key_types := [sampleKeyType 1 "KT1" KeyTypeStatus.ACTIVE 365]
    crypto_keys := [sampleKey 1 "K1" KeyStatus.DESTROYED 1 100]
    next_id := 2 }

/-- Witness for the amended C4: once every referencing row is
`DESTROYED`, a non-forced disable succeeds and only flips the key
type's status. -/
theorem C4_disable_dependents_are_rows_witness :
    delete_key_type allDestroyedDb "KT1" false =
      .ok ({ allDestroyedDb with key_types := allDestroyedDb.key_types.map (fun t =>
              if t.id == 1 then { t with status := KeyTypeStatus.DISABLED } else t) },
        ("KT1", KeyTypeStatus.DISABLED)) :=
  ((C4_disable_dependents_are_rows allDestroyedDb "KT1" false).2
    (sampleKeyType 1 "KT1" KeyTypeStatus.ACTIVE 365) rfl).2.1 rfl

/-- C8 counterexample.  The token `0d` passes the `^\d+[dmy]$` field
pattern, parses to the day count 0, and passes the ceiling check, so a
`KeyType` with the non-positive day count 0 is accepted and persisted,
contradicting the claimed positivity. -/
theorem C8_counterexample_zero_days_accepted :
    keyTypeCryptoperiodAccept "0d" = some 0 ∧ ¬ (0 : Nat) > 0 := by
  exact ⟨by decide, by decide⟩

/-- C8 as amended: every accepted token's day count is a nonnegative
integer not exceeding 36,500 (zero included — positivity is not
enforced), and a token whose parsed day count exceeds that ceiling is
rejected. -/
theorem C8_cryptoperiod_ceiling (token : String) (days : Nat) :
    (keyTypeCryptoperiodAccept token = some days → days ≤ 36500) ∧
    (parse_cryptoperiod token = some days → days > 36500 →
      keyTypeCryptoperiodAccept token = none) := by
  constructor
  · intro h
    unfold keyTypeCryptoperiodAccept at h
    by_cases hm : matchesCryptoperiodPattern token = true
    · rw [if_neg (by simp [hm])] at h
      rcases hp : parse_cryptoperiod token with _ | d
      · rw [hp] at h
        simp at h
      · rw [hp] at h
        rcases hv : validate_cryptoperiod_days d with _ | _
        · simp [hv] at h
        · simp [hv] at h
          subst h
          unfold validate_cryptoperiod_days at hv
          simp at hv
          omega
    · rw [if_pos (by simp [hm])] at h
      cases h
  · intro hp hgt
    unfold keyTypeCryptoperiodAccept
    by_cases hm : matchesCryptoperiodPattern token = true
    · rw [if_neg (by simp [hm]), hp]
      have hv : validate_cryptoperiod_days days = false := by
        unfold validate_cryptoperiod_days
        simp
        omega
      simp [hv]
    · rw [if_pos (by simp [hm])]

/-- Witness for the amended C8: the maximal token `100y` is accepted
at exactly the ceiling, and `101y` (36,865 days) is rejected. -/
theorem C8_cryptoperiod_ceiling_witness :
    (36500 : Nat) ≤ 36500 ∧ keyTypeCryptoperiodAccept "101y" = none :=
  ⟨(C8_cryptoperiod_ceiling "100y" 36500).1 (by decide),
   (C8_cryptoperiod_ceiling "101y" 36865).2 (by decide) (by decide)⟩

/-- C9.  The codec round-trip law: every day count produced by a
successful parse is reproduced by `parse` after `format` (first
conjunct, at the hypothesis's `x`), while `format` after `parse` is
lossy, witnessed by the claim's concrete values — in particular
`360d` parses to 360 and formats back as `12m`, not `360d`. -/
theorem C9_codec_lossy_roundtrip (t : String) (x : Nat)
    (h : parse_cryptoperiod t = some x) :
    parse_cryptoperiod (format_cryptoperiod x) = some x ∧
    parse_cryptoperiod "30d" = some 30 ∧
    parse_cryptoperiod "6m" = some 180 ∧
    parse_cryptoperiod "1y" = some 365 ∧
    format_cryptoperiod 365 = "1y" ∧
    format_cryptoperiod 180 = "6m" ∧
    format_cryptoperiod 40 = "40d" ∧
    parse_cryptoperiod "360d" = some 360 ∧
    format_cryptoperiod 360 = "12m" ∧
    format_cryptoperiod 360 ≠ "360d" :=
  ⟨parse_format_roundtrip x, by decide, by decide, by decide, by decide,
   by decide, by decide, by decide, by decide, by decide⟩

/-- Witness for C9 at the lossy token: `360d` parses to 360, and 360
round-trips through `format` and `parse`. -/
theorem C9_codec_lossy_roundtrip_witness :
    parse_cryptoperiod "360d" = some 360 ∧
    parse_cryptoperiod (format_cryptoperiod 360) = some 360 :=
  ⟨by decide, (C9_codec_lossy_roundtrip "360d" 360 (by decide)).1⟩

end CryptoInventory
